import Mathlib

/-!
Verification of the Pi-Swarm SSH management core
(`lib/python/ssh_manager.py`, backup snapshot 20250607-001336).

The module is shallowly embedded: the outcome of each external subprocess
call (the spawned ssh / sshpass process) is an explicit parameter of type
`SubprocessOutcome`, and Python exceptions are modelled with `Except`.
Python string formatting is modelled with `String.append`; Python substring
tests (`"x" in s`) with `strContains`; Python truthiness of optional
strings (`if not self.password`) with `pyTruthy`.
-/

namespace PiSwarm

/-- Python truthiness of an `Optional[str]` value: `None` and the empty
string are falsy, every non-empty string is truthy. -/
def pyTruthy : Option String → Bool
  | none => false
  | some s => !s.isEmpty

/-- `charsStartWith s pat`: the character list `pat` is a prefix of `s`. -/
def charsStartWith : List Char → List Char → Bool
  | _, [] => true
  | [], _ :: _ => false
  | c :: cs, p :: ps => c == p && charsStartWith cs ps

/-- `charsContain s pat`: `pat` occurs as a contiguous sublist of `s`. -/
def charsContain : List Char → List Char → Bool
  | [], pat => charsStartWith [] pat
  | c :: cs, pat => charsStartWith (c :: cs) pat || charsContain cs pat

/-- Python `pat in s` substring test. -/
def strContains (s pat : String) : Bool :=
  charsContain s.data pat.data

/-- Python `s.lower()` (character-wise lowercasing). -/
def strToLower (s : String) : String :=
  String.mk (s.data.map Char.toLower)

/-- `SSHCredentials` dataclass: username, optional password, optional
private key path, port defaulting to 22 (ssh_manager.py lines 37-47). -/
structure SSHCredentials where
  username : String
  password : Option String := none
  private_key_path : Option String := none
  port : Nat := 22
  deriving Repr, DecidableEq

/-- Construction of `SSHCredentials`, including `__post_init__`
(lines 45-47): raises `ValueError` when both `password` and
`private_key_path` are Python-falsy, i.e. `None` or empty. -/
def SSHCredentials.make (username : String) (password : Option String := none)
    (private_key_path : Option String := none) (port : Nat := 22) :
    Except String SSHCredentials :=
  if !pyTruthy password && !pyTruthy private_key_path then
    .error "Either password or private_key_path must be provided"
  else
    .ok { username := username, password := password,
          private_key_path := private_key_path, port := port }

/-- `SSHConnectionResult` dataclass (lines 50-57).  Times are modelled as
rationals; the field defaults mirror the dataclass defaults. -/
structure SSHConnectionResult where
  host : String
  success : Bool
  error_message : Option String := none
  connection_time : ℚ := 0
  auth_method : Option String := none
  deriving Repr, DecidableEq

/-- `SSHCommandResult` dataclass (lines 60-69). -/
structure SSHCommandResult where
  host : String
  command : String
  success : Bool
  stdout : String := ""
  stderr : String := ""
  exit_code : Int := -1
  execution_time : ℚ := 0
  deriving Repr, DecidableEq

/-- Outcome of one `subprocess.run` call, as seen by the caller:
normal completion (return code, captured streams, measured wall-clock
duration), `subprocess.TimeoutExpired`, or any other raised exception
(carrying `str(e)`). -/
inductive SubprocessOutcome where
  | completed (returncode : Int) (stdout stderr : String) (elapsed : ℚ)
  | timedOut
  | raised (msg : String)
  deriving Repr, DecidableEq

/-- The `error_interpretations` table of `_interpret_ssh_error`
(lines 162-169) with its `.get` default: the base message for an exit
code. -/
def interpretBase (exit_code : Int) : String :=
  if exit_code = 255 then "SSH connection failed - host unreachable or SSH not running"
  else if exit_code = 5 then "SSH authentication failed - invalid credentials"
  else if exit_code = 6 then "SSH authentication failed - permission denied"
  else if exit_code = 130 then "Connection interrupted by user"
  else "SSH failed with exit code " ++ toString exit_code

/-- `SSHConnectionPool._interpret_ssh_error` (lines 160-181): fixed table on
the exit code, then a guidance suffix keyed on substrings of
`stderr.lower()`. -/
def interpret_ssh_error (exit_code : Int) (stderr : String) : String :=
  if strContains (strToLower stderr) "permission denied" then
    interpretBase exit_code ++ ". Check username and password/key."
  else if strContains (strToLower stderr) "connection refused" then
    interpretBase exit_code ++ ". Ensure SSH server is running on the target host."
  else if strContains (strToLower stderr) "no route to host" then
    interpretBase exit_code ++ ". Check network connectivity."
  else if strContains (strToLower stderr) "timeout" then
    interpretBase exit_code ++ ". Connection timed out - check network and SSH configuration."
  else interpretBase exit_code

/-- The error message of the `subprocess.TimeoutExpired` branch of
`test_connection` (line 151), for a pool whose `connection_timeout` is
`t` seconds. -/
def connTimeoutMsg (t : Nat) : String :=
  "Connection timeout after " ++ toString t ++ " seconds"

/-- `SSHConnectionPool.test_connection` (lines 95-158) for a pool with
`connection_timeout = t`.  The subprocess outcome is passed in explicitly;
every branch of the Python function is mirrored, including the
`except` clauses that convert timeouts and other exceptions into failure
results (with `connection_time` left at its dataclass default `0.0`). -/
def test_connection (t : Nat) (host : String) (credentials : SSHCredentials)
    (outcome : SubprocessOutcome) : SSHConnectionResult :=
  match outcome with
  | .completed rc _ err elapsed =>
    if rc = 0 then
      { host := host, success := true, connection_time := elapsed,
        auth_method := some (if pyTruthy credentials.password then "password" else "key") }
    else
      { host := host, success := false,
        error_message := some (interpret_ssh_error rc err),
        connection_time := elapsed }
  | .timedOut =>
    { host := host, success := false, error_message := some (connTimeoutMsg t) }
  | .raised msg =>
    { host := host, success := false, error_message := some msg }

/-- `SSHConnectionPool.execute_command` (lines 215-276) with command
timeout `timeout` seconds.  Total: every subprocess outcome, including the
raised-exception case, is converted into an `SSHCommandResult`. -/
def execute_command (host command : String) (_credentials : SSHCredentials)
    (timeout : Nat) (outcome : SubprocessOutcome) : SSHCommandResult :=
  match outcome with
  | .completed rc out err elapsed =>
    { host := host, command := command, success := rc == 0,
      stdout := out, stderr := err, exit_code := rc, execution_time := elapsed }
  | .timedOut =>
    { host := host, command := command, success := false,
      stderr := "Command timeout after " ++ toString timeout ++ " seconds",
      exit_code := -1 }
  | .raised msg =>
    { host := host, command := command, success := false,
      stderr := msg, exit_code := -1 }

/-- Outcome of `future.result()` for one host's unit of work in a batch:
either the unit's result, or an exception (carrying `str(e)`) raised while
retrieving it. -/
inductive FetchOutcome (α : Type) where
  | ok (r : α)
  | exn (msg : String)
  deriving Repr, DecidableEq

/-- `SSHConnectionPool.test_multiple_connections` (lines 183-213).  The
per-host future results are given by `env`; the `except` clause of the
collection loop converts an exception for one host into a failure result
for that host alone.  The result dict (one key per host) is modelled as an
association list in submission order; completion order does not affect its
contents. -/
def test_multiple_connections
    (hosts_credentials : List (String × SSHCredentials))
    (env : String → SSHCredentials → FetchOutcome SSHConnectionResult) :
    List (String × SSHConnectionResult) :=
  hosts_credentials.map fun p =>
    match env p.1 p.2 with
    | .ok r => (p.1, r)
    | .exn msg =>
      (p.1, { host := p.1, success := false,
              error_message := some ("Test execution failed: " ++ msg) })

/-- Python exceptions that escape the dispatcher in this module. -/
inductive PyExn where
  | indexError
  deriving Repr, DecidableEq

/-- The credential argument built for one host in the dict comprehension of
`execute_parallel_commands` (line 290):
`credentials_map.get(host, list(credentials_map.values())[0])`.
Python evaluates the default argument eagerly, so an empty
`credentials_map` raises `IndexError` before any lookup; otherwise the
fallback is the first value in insertion order. -/
def resolveCreds (credentials_map : List (String × SSHCredentials))
    (host : String) : Except PyExn SSHCredentials :=
  match credentials_map with
  | [] => .error .indexError
  | (k, v) :: rest => .ok ((((k, v) :: rest).lookup host).getD v)

/-- Resolution of credentials for every host of the batch, in insertion
order, as performed by the dict comprehension building `future_to_host`
(lines 285-294); the first `IndexError` escapes. -/
def resolveAll (credentials_map : List (String × SSHCredentials)) :
    List (String × String) → Except PyExn (List (String × String × SSHCredentials))
  | [] => .ok []
  | (host, command) :: rest => do
    let creds ← resolveCreds credentials_map host
    let tail ← resolveAll credentials_map rest
    .ok ((host, command, creds) :: tail)

/-- The result-collection loop of `execute_parallel_commands`
(lines 296-315): one entry per unit, with an exception raised while
retrieving a unit's result converted into a failure `SSHCommandResult`
for that host alone. -/
def collectResults (units : List (String × String × SSHCredentials))
    (env : String → String → SSHCredentials → FetchOutcome SSHCommandResult) :
    List (String × SSHCommandResult) :=
  units.map fun u =>
    match env u.1 u.2.1 u.2.2 with
    | .ok r => (u.1, r)
    | .exn msg =>
      (u.1, { host := u.1, command := u.2.1, success := false,
              stderr := "Execution failed: " ++ msg, exit_code := -1 })

/-- `SSHConnectionPool.execute_parallel_commands` (lines 278-317).  The
per-host future results are given by `env`.  An `IndexError` from the
credential-fallback expression escapes the call. -/
def execute_parallel_commands (hosts_commands : List (String × String))
    (credentials_map : List (String × SSHCredentials))
    (env : String → String → SSHCredentials → FetchOutcome SSHCommandResult) :
    Except PyExn (List (String × SSHCommandResult)) := do
  let units ← resolveAll credentials_map hosts_commands
  .ok (collectResults units env)

/-- One node's entry in the cluster configuration dict, as read by
`validate_cluster_connectivity` and `setup_ssh_keys` with
`node_config.get(...)`: every field may be missing (`None`). -/
structure NodeConfig where
  ip : Option String := none
  username : Option String := none
  password : Option String := none
  ssh_key_path : Option String := none
  deriving Repr, DecidableEq

/-- Python dict insertion: update the value in place when the key exists,
append otherwise (used for the host-keyed `hosts_credentials` dict). -/
def dictInsert (k : String) (v : SSHCredentials) :
    List (String × SSHCredentials) → List (String × SSHCredentials)
  | [] => [(k, v)]
  | (k0, v0) :: rest =>
    if k0 = k then (k0, v) :: rest else (k0, v0) :: dictInsert k v rest

/-- The credential-extraction loop of `validate_cluster_connectivity`
(lines 332-344), with the dict built so far as accumulator: for every node
with a truthy `ip`, construct
`SSHCredentials(username or pi, password, ssh_key_path)`; the `ValueError`
from construction propagates at the first offending node. -/
def extractLoop (acc : List (String × SSHCredentials)) :
    List (String × NodeConfig) → Except String (List (String × SSHCredentials))
  | [] => .ok acc
  | (_, cfg) :: rest =>
    if pyTruthy cfg.ip then
      match SSHCredentials.make (cfg.username.getD "pi") cfg.password cfg.ssh_key_path with
      | .error e => .error e
      | .ok creds => extractLoop (dictInsert (cfg.ip.getD "") creds acc) rest
    else extractLoop acc rest

/-- The `hosts_credentials` dict of `validate_cluster_connectivity`. -/
def extractHostsCredentials (nodes : List (String × NodeConfig)) :
    Except String (List (String × SSHCredentials)) :=
  extractLoop [] nodes

/-- The summary dict built by `validate_cluster_connectivity`
(lines 349-361). -/
structure ConnectivitySummary where
  total_nodes : Nat
  successful_connections : Nat
  failed_connections : Nat
  success_rate : ℚ
  successful_hosts : List String
  failed_hosts : List String
  detailed_results : List (String × SSHConnectionResult)
  deriving Repr, DecidableEq

/-- Summarisation step of `validate_cluster_connectivity` (lines 349-361),
applied to the dispatcher's result mapping.  `success_rate` mirrors
`len(successful)/len(results)*100 if results else 0`. -/
def summarize (results : List (String × SSHConnectionResult)) : ConnectivitySummary :=
  let successful_hosts := (results.filter fun p => p.2.success).map Prod.fst
  let failed_hosts := (results.filter fun p => !p.2.success).map Prod.fst
  { total_nodes := results.length
    successful_connections := successful_hosts.length
    failed_connections := failed_hosts.length
    success_rate :=
      if results.isEmpty then 0
      else (successful_hosts.length : ℚ) / (results.length : ℚ) * 100
    successful_hosts := successful_hosts
    failed_hosts := failed_hosts
    detailed_results := results }

/-- `SSHManager.validate_cluster_connectivity` (lines 327-374): extract
credentials (may raise `ValueError`), probe all hosts through the
dispatcher, and summarise. -/
def validate_cluster_connectivity (nodes : List (String × NodeConfig))
    (env : String → SSHCredentials → FetchOutcome SSHConnectionResult) :
    Except String ConnectivitySummary := do
  let hosts_credentials ← extractHostsCredentials nodes
  .ok (summarize (test_multiple_connections hosts_credentials env))

/-- The remote command built by `setup_ssh_keys` (line 410) for a given
public key: unconditional `>>` append, no guard. -/
def deployCommand (public_key : String) : String :=
  "mkdir -p ~/.ssh && echo \x27" ++ public_key ++
    "\x27 >> ~/.ssh/authorized_keys && chmod 600 ~/.ssh/authorized_keys && chmod 700 ~/.ssh"

/-- Remote-side effect of one run of `deployCommand key` on the line list
of `~/.ssh/authorized_keys`: `mkdir -p` and `chmod` leave file contents
unchanged and `>>` appends, so each run appends the key line
unconditionally (the command contains no guard such as a `grep` check). -/
def deployEffect (public_key : String) (authorized_keys : List String) : List String :=
  authorized_keys ++ [public_key]

/-- `SSHManager.setup_ssh_keys` deployment loop (lines 397-419): for every
node with a truthy `ip`, build credentials from the node's `password` only
(never its `ssh_key_path`), run `deployCommand` remotely, and record
`result.success`.  A `ValueError` from credential construction propagates
out of the loop, discarding the results accumulated so far. -/
def setup_ssh_keys (nodes : List (String × NodeConfig)) (public_key : String)
    (env : String → String → SSHCredentials → SubprocessOutcome) :
    Except String (List (String × Bool)) :=
  match nodes with
  | [] => .ok []
  | (_, cfg) :: rest =>
    if pyTruthy cfg.ip then
      match SSHCredentials.make (cfg.username.getD "pi") cfg.password none with
      | .error e => .error e
      | .ok creds =>
        let host := cfg.ip.getD ""
        let cmd := deployCommand public_key
        let r := execute_command host cmd creds 60 (env host cmd creds)
        match setup_ssh_keys rest public_key env with
        | .error e => .error e
        | .ok tail => .ok ((host, r.success) :: tail)
    else setup_ssh_keys rest public_key env

/-- A sample credential record used in concrete instantiations. -/
def sampleCreds : SSHCredentials :=
  { username := "pi", password := some "raspberry" }

/-- A sample public key line used in concrete instantiations. -/
def sampleKey : String :=
  "ssh-rsa AAAAB3NzaC1yc2E pi-swarm-cluster-key"

/-- A sample one-node cluster configuration. -/
def sampleNodes : List (String × NodeConfig) :=
  [("node1", { ip := some "192.168.1.10", password := some "raspberry" })]

/-- A sample probe environment: every probe succeeds in one second. -/
def sampleProbeEnv : String → SSHCredentials → FetchOutcome SSHConnectionResult :=
  fun host _ =>
    .ok { host := host, success := true, connection_time := 1,
          auth_method := some "password" }

theorem data_append (a b : String) : (a ++ b).data = a.data ++ b.data := by
  cases a; cases b; rfl

theorem charsStartWith_append (p s t : List Char) (h : charsStartWith s p = true) :
    charsStartWith (s ++ t) p = true := by
  induction p generalizing s with
  | nil => simp [charsStartWith]
  | cons c cs ih =>
    cases s with
    | nil => simp [charsStartWith] at h
    | cons a as =>
      simp only [charsStartWith, Bool.and_eq_true] at h
      simp only [List.cons_append, charsStartWith, Bool.and_eq_true]
      exact ⟨h.1, ih as h.2⟩

theorem charsStartWith_refl (p : List Char) : charsStartWith p p = true := by
  induction p with
  | nil => rfl
  | cons c cs ih => simp [charsStartWith, ih]

theorem charsContain_nil_pat (s : List Char) : charsContain s [] = true := by
  cases s <;> simp [charsContain, charsStartWith]

theorem charsContain_of_startWith (s p : List Char) (h : charsStartWith s p = true) :
    charsContain s p = true := by
  cases s with
  | nil => exact h
  | cons a as => simp [charsContain, h]

theorem charsContain_refl (p : List Char) : charsContain p p = true :=
  charsContain_of_startWith p p (charsStartWith_refl p)

theorem charsContain_append_left (p s t : List Char) (h : charsContain s p = true) :
    charsContain (s ++ t) p = true := by
  induction s with
  | nil =>
    cases p with
    | nil => exact charsContain_nil_pat t
    | cons c cs => simp [charsContain, charsStartWith] at h
  | cons a as ih =>
    simp only [charsContain, Bool.or_eq_true] at h
    simp only [List.cons_append, charsContain, Bool.or_eq_true]
    cases h with
    | inl h => exact Or.inl (charsStartWith_append p (a :: as) t h)
    | inr h => exact Or.inr (ih h)

theorem charsContain_append_right (p s t : List Char) (h : charsContain t p = true) :
    charsContain (s ++ t) p = true := by
  induction s with
  | nil => exact h
  | cons a as ih =>
    simp only [List.cons_append, charsContain, Bool.or_eq_true]
    exact Or.inr ih

theorem strContains_append_left (a b p : String) (h : strContains a p = true) :
    strContains (a ++ b) p = true := by
  unfold strContains at h ⊢
  rw [data_append]
  exact charsContain_append_left p.data a.data b.data h

theorem strContains_suffix (s t : String) : strContains (s ++ t) t = true := by
  unfold strContains
  rw [data_append]
  exact charsContain_append_right t.data s.data t.data (charsContain_refl t.data)

theorem string_head_append (a b : String) (c : Char) (h : a.data.head? = some c) :
    (a ++ b).data.head? = some c := by
  rw [data_append]
  rcases hd : a.data with _ | ⟨x, xs⟩
  · rw [hd] at h; simp at h
  · rw [hd] at h
    simpa using h

theorem string_ne_of_head (a b : String) (ca cb : Char)
    (ha : a.data.head? = some ca) (hb : b.data.head? = some cb) (hne : ca ≠ cb) :
    a ≠ b := by
  intro e
  rw [e, hb] at ha
  exact hne (Option.some.inj ha).symm

theorem str_append_empty (s : String) : s ++ "" = s := by
  cases s
  show String.mk (_ ++ []) = _
  rw [List.append_nil]

theorem str_append_assoc (a b c : String) : a ++ b ++ c = a ++ (b ++ c) := by
  cases a; cases b; cases c
  exact congrArg String.mk (List.append_assoc _ _ _)

theorem interpret_eq_base_append (exit_code : Int) (stderr : String) :
    ∃ suf, interpret_ssh_error exit_code stderr = interpretBase exit_code ++ suf := by
  unfold interpret_ssh_error
  split
  · exact ⟨_, rfl⟩
  split
  · exact ⟨_, rfl⟩
  split
  · exact ⟨_, rfl⟩
  split
  · exact ⟨_, rfl⟩
  · exact ⟨"", (str_append_empty _).symm⟩

theorem connTimeoutMsg_head (t : Nat) :
    (connTimeoutMsg t).data.head? = some 'C' := by
  unfold connTimeoutMsg
  exact string_head_append _ " seconds" 'C'
    (string_head_append "Connection timeout after " (toString t) 'C' (by decide))

theorem interpret_auth_head (exit_code : Int) (stderr : String)
    (h : exit_code = 5 ∨ exit_code = 6) :
    (interpret_ssh_error exit_code stderr).data.head? = some 'S' := by
  obtain ⟨suf, hsuf⟩ := interpret_eq_base_append exit_code stderr
  rw [hsuf]
  refine string_head_append _ suf 'S' ?_
  cases h with
  | inl h => rw [h]; decide
  | inr h => rw [h]; decide

theorem connTimeoutMsg_ne_auth (t : Nat) (stderr : String) :
    connTimeoutMsg t ≠ interpret_ssh_error 5 stderr
      ∧ connTimeoutMsg t ≠ interpret_ssh_error 6 stderr :=
  ⟨string_ne_of_head _ _ 'C' 'S' (connTimeoutMsg_head t)
      (interpret_auth_head 5 stderr (Or.inl rfl)) (by decide),
   string_ne_of_head _ _ 'C' 'S' (connTimeoutMsg_head t)
      (interpret_auth_head 6 stderr (Or.inr rfl)) (by decide)⟩

theorem interpretBase_unclassified (rc : Int) (stderr : String)
    (h255 : rc ≠ 255) (h5 : rc ≠ 5) (h6 : rc ≠ 6) (h130 : rc ≠ 130) :
    strContains (interpret_ssh_error rc stderr) ("exit code " ++ toString rc) = true := by
  have hbase : strContains (interpretBase rc) ("exit code " ++ toString rc) = true := by
    unfold interpretBase
    rw [if_neg h255, if_neg h5, if_neg h6, if_neg h130]
    have hsplit : "SSH failed with exit code " ++ toString rc
        = "SSH failed with " ++ ("exit code " ++ toString rc) := by
      rw [← str_append_assoc]
      rfl
    rw [hsplit]
    exact strContains_suffix "SSH failed with " ("exit code " ++ toString rc)
  unfold interpret_ssh_error
  split
  · exact strContains_append_left _ _ _ hbase
  split
  · exact strContains_append_left _ _ _ hbase
  split
  · exact strContains_append_left _ _ _ hbase
  split
  · exact strContains_append_left _ _ _ hbase
  · exact hbase

/-- C4: every failed probe's error message comes from the fixed
classification table of `_interpret_ssh_error` (known exit codes 255/5/6/130
and the stderr substrings for permission denied, connection refused, no
route to host and timeout); an unclassified exit code `N` yields a generic
message containing "exit code N"; and the timeout message of
`test_connection` differs from every authentication-failure message. -/
theorem probe_error_classification :
    (∀ t host creds rc out err el, rc ≠ 0 →
      (test_connection t host creds (.completed rc out err el)).error_message
        = some (interpret_ssh_error rc err))
    ∧ interpret_ssh_error 255 ""
        = "SSH connection failed - host unreachable or SSH not running"
    ∧ interpret_ssh_error 5 "" = "SSH authentication failed - invalid credentials"
    ∧ interpret_ssh_error 6 "" = "SSH authentication failed - permission denied"
    ∧ interpret_ssh_error 130 "" = "Connection interrupted by user"
    ∧ interpret_ssh_error 255 "ssh: connect to host 192.168.1.10 port 22: Connection refused"
        = "SSH connection failed - host unreachable or SSH not running. Ensure SSH server is running on the target host."
    ∧ interpret_ssh_error 255 "ssh: connect to host 192.168.1.10 port 22: No route to host"
        = "SSH connection failed - host unreachable or SSH not running. Check network connectivity."
    ∧ interpret_ssh_error 5 "Permission denied (publickey,password)."
        = "SSH authentication failed - invalid credentials. Check username and password/key."
    ∧ interpret_ssh_error 255 "Connection timeout during banner exchange"
        = "SSH connection failed - host unreachable or SSH not running. Connection timed out - check network and SSH configuration."
    ∧ (∀ rc stderr, rc ≠ 255 → rc ≠ 5 → rc ≠ 6 → rc ≠ 130 →
        strContains (interpret_ssh_error rc stderr) ("exit code " ++ toString rc) = true)
    ∧ (∀ t host creds,
        (test_connection t host creds .timedOut).error_message = some (connTimeoutMsg t))
    ∧ (∀ t stderr, connTimeoutMsg t ≠ interpret_ssh_error 5 stderr
        ∧ connTimeoutMsg t ≠ interpret_ssh_error 6 stderr) := by
  refine ⟨?_, by decide, by decide, by decide, by decide, by decide, by decide,
    by decide, by decide, ?_, ?_, ?_⟩
  · intro t host creds rc out err el h
    simp [test_connection, h]
  · intro rc stderr h255 h5 h6 h130
    exact interpretBase_unclassified rc stderr h255 h5 h6 h130
  · intro t host creds
    rfl
  · intro t stderr
    exact connTimeoutMsg_ne_auth t stderr

/-- C4 witness: the classification theorem instantiated at a failed probe
with exit code 255 and at the unclassified exit code 7. -/
theorem probe_error_classification_inst :
    (test_connection 30 "192.168.1.10" sampleCreds (.completed 255 "" "x" 1)).error_message
      = some (interpret_ssh_error 255 "x")
    ∧ strContains (interpret_ssh_error 7 "") ("exit code " ++ toString (7 : Int)) = true :=
  ⟨probe_error_classification.1 30 "192.168.1.10" sampleCreds 255 "" "x" 1 (by decide),
   (probe_error_classification.2.2.2.2.2.2.2.2.2.1) 7 "" (by decide) (by decide)
     (by decide) (by decide)⟩

/-- C5: `execute_command` never raises: a subprocess timeout yields
`success = false`, `exit_code = -1` and a stderr containing a timeout
message; any other raised exception yields the same shape with the
exception text as stderr; and on normal completion `success` holds exactly
when the remote exit code is 0, with stdout and stderr captured verbatim.
The function is total over `SubprocessOutcome`, which is the never-raises
guarantee. -/
theorem executor_failure_semantics :
    (∀ host command creds timeout rc out err el,
      execute_command host command creds timeout (.completed rc out err el)
        = { host := host, command := command, success := rc == 0, stdout := out,
            stderr := err, exit_code := rc, execution_time := el })
    ∧ (∀ host command creds timeout,
      execute_command host command creds timeout .timedOut
        = { host := host, command := command, success := false,
            stderr := "Command timeout after " ++ toString timeout ++ " seconds",
            exit_code := -1 })
    ∧ (∀ host command creds timeout,
        strContains (execute_command host command creds timeout .timedOut).stderr
          "timeout" = true)
    ∧ (∀ host command creds timeout msg,
      execute_command host command creds timeout (.raised msg)
        = { host := host, command := command, success := false, stderr := msg,
            exit_code := -1 })
    ∧ (∀ host command creds timeout rc out err el,
        ((execute_command host command creds timeout (.completed rc out err el)).success
          = true ↔ rc = 0)) := by
  refine ⟨fun _ _ _ _ _ _ _ _ => rfl, fun _ _ _ _ => rfl, ?_, fun _ _ _ _ _ => rfl, ?_⟩
  · intro host command creds timeout
    show strContains ("Command timeout after " ++ toString timeout ++ " seconds")
      "timeout" = true
    exact strContains_append_left _ " seconds" "timeout"
      (strContains_append_left "Command timeout after " (toString timeout) "timeout"
        (by decide))
  · intro host command creds timeout rc out err el
    show (rc == 0) = true ↔ rc = 0
    exact beq_iff_eq

/-- C9: on the timeout and raised-exception paths neither `test_connection`
nor `execute_command` records elapsed time — the time fields keep their
dataclass default `0.0` — while the normal completion path reports the
measured elapsed time. -/
theorem elapsed_time_not_recorded_on_failure :
    (∀ t host creds, (test_connection t host creds .timedOut).connection_time = 0)
    ∧ (∀ t host creds msg,
        (test_connection t host creds (.raised msg)).connection_time = 0)
    ∧ (∀ host cmd creds timeout,
        (execute_command host cmd creds timeout .timedOut).execution_time = 0)
    ∧ (∀ host cmd creds timeout msg,
        (execute_command host cmd creds timeout (.raised msg)).execution_time = 0)
    ∧ (∀ t host creds rc out err el,
        (test_connection t host creds (.completed rc out err el)).connection_time = el)
    ∧ (∀ host cmd creds timeout rc out err el,
        (execute_command host cmd creds timeout
          (.completed rc out err el)).execution_time = el) := by
  refine ⟨fun _ _ _ => rfl, fun _ _ _ _ => rfl, fun _ _ _ _ => rfl,
    fun _ _ _ _ _ => rfl, ?_, fun _ _ _ _ _ _ _ _ => rfl⟩
  intro t host creds rc out err el
  by_cases h : rc = 0 <;> simp [test_connection, h]

theorem test_multiple_connections_fst (hc : List (String × SSHCredentials))
    (env : String → SSHCredentials → FetchOutcome SSHConnectionResult) :
    (test_multiple_connections hc env).map Prod.fst = hc.map Prod.fst := by
  induction hc with
  | nil => rfl
  | cons p rest ih =>
    obtain ⟨host, creds⟩ := p
    simp only [test_multiple_connections, List.map_cons] at ih ⊢
    cases henv : env host creds <;> simp [henv, ih]

theorem collectResults_fst (units : List (String × String × SSHCredentials))
    (env : String → String → SSHCredentials → FetchOutcome SSHCommandResult) :
    (collectResults units env).map Prod.fst = units.map Prod.fst := by
  induction units with
  | nil => rfl
  | cons u rest ih =>
    simp only [collectResults, List.map_cons] at ih ⊢
    cases henv : env u.1 u.2.1 u.2.2 <;> simp [henv, ih]

theorem resolveAll_ok_of_ne_nil (cm : List (String × SSHCredentials))
    (hc : List (String × String)) (hne : cm ≠ []) :
    ∃ units, resolveAll cm hc = .ok units ∧ units.map Prod.fst = hc.map Prod.fst := by
  induction hc with
  | nil => exact ⟨[], rfl, rfl⟩
  | cons p rest ih =>
    obtain ⟨units, hu, hmap⟩ := ih
    cases cm with
    | nil => exact absurd rfl hne
    | cons c cmrest =>
      obtain ⟨k, v⟩ := c
      refine ⟨(p.1, p.2, ((((k, v) :: cmrest).lookup p.1).getD v)) :: units, ?_, ?_⟩
      · simp [resolveAll, resolveCreds, hu, Bind.bind, Except.bind]
      · simp [hmap]

/-- C1 (amended): `test_multiple_connections` returns exactly one result
per requested host, and an exception raised while retrieving one host's
result is converted into a failure result for that host alone;
`execute_parallel_commands` guarantees the same provided its
`credentials_map` is non-empty (with an empty map and a non-empty batch it
raises `IndexError` instead of returning a mapping, see the
counterexample). -/
theorem parallel_dispatcher_complete :
    (∀ hc env, (test_multiple_connections hc env).map Prod.fst = hc.map Prod.fst)
    ∧ (∀ hc env host creds msg, (host, creds) ∈ hc → env host creds = .exn msg →
        (host, ({ host := host, success := false,
                  error_message := some ("Test execution failed: " ++ msg) }
          : SSHConnectionResult)) ∈ test_multiple_connections hc env)
    ∧ (∀ hosts_commands credentials_map env, credentials_map ≠ [] →
        ∃ rs, execute_parallel_commands hosts_commands credentials_map env = .ok rs
          ∧ rs.map Prod.fst = hosts_commands.map Prod.fst)
    ∧ (∀ units env host command creds msg, (host, command, creds) ∈ units →
        env host command creds = .exn msg →
        (host, ({ host := host, command := command, success := false,
                  stderr := "Execution failed: " ++ msg, exit_code := -1 }
          : SSHCommandResult)) ∈ collectResults units env) := by
  refine ⟨test_multiple_connections_fst, ?_, ?_, ?_⟩
  · intro hc env host creds msg hmem henv
    induction hc with
    | nil => simp at hmem
    | cons p rest ih =>
      rcases List.mem_cons.mp hmem with h | h
      · rw [← h]
        simp [test_multiple_connections, henv]
      · simp only [test_multiple_connections, List.map_cons]
        exact List.mem_cons_of_mem _ (ih h)
  · intro hosts_commands credentials_map env hne
    obtain ⟨units, hu, hmap⟩ := resolveAll_ok_of_ne_nil credentials_map hosts_commands hne
    refine ⟨collectResults units env, ?_, ?_⟩
    · simp [execute_parallel_commands, hu, Bind.bind, Except.bind]
    · rw [collectResults_fst, hmap]
  · intro units env host command creds msg hmem henv
    induction units with
    | nil => simp at hmem
    | cons u rest ih =>
      rcases List.mem_cons.mp hmem with h | h
      · rw [← h]
        simp [collectResults, henv]
      · simp only [collectResults, List.map_cons]
        exact List.mem_cons_of_mem _ (ih h)

/-- C1 counterexample: a batch of one host with an empty credentials map
makes `execute_parallel_commands` raise `IndexError`, so no result mapping
with one entry per requested host is returned for this batch. -/
theorem parallel_dispatcher_empty_credmap_cex :
    execute_parallel_commands [("192.168.1.10", "uptime")] []
      (fun _ _ _ => FetchOutcome.exn "boom") = .error PyExn.indexError := rfl

/-- C1 witness: the amended theorem instantiated at a one-host batch whose
result retrieval raises. -/
theorem parallel_dispatcher_complete_inst :
    ("192.168.1.10",
      ({ host := "192.168.1.10", success := false,
         error_message := some "Test execution failed: boom" } : SSHConnectionResult))
      ∈ test_multiple_connections [("192.168.1.10", sampleCreds)]
          (fun _ _ => .exn "boom") :=
  parallel_dispatcher_complete.2.1 [("192.168.1.10", sampleCreds)]
    (fun _ _ => .exn "boom") "192.168.1.10" sampleCreds "boom"
    (List.mem_cons_self _ _) rfl

/-- C8: in `execute_parallel_commands` the fallback credential for a host
absent from `credentials_map` is the first value of the map in insertion
order, and with a non-empty batch and an empty `credentials_map` the call
raises `IndexError` (which escapes the batch caller) instead of returning
a result mapping. -/
theorem fallback_credential_policy :
    (∀ host k v rest,
      List.lookup host ((k, v) :: rest : List (String × SSHCredentials)) = none →
      resolveCreds ((k, v) :: rest) host = .ok v)
    ∧ (∀ host command rest env,
      execute_parallel_commands ((host, command) :: rest) [] env
        = .error PyExn.indexError) := by
  constructor
  · intro host k v rest h
    simp [resolveCreds, h]
  · intro host command rest env
    rfl

/-- C8 witness: the fallback returns the first map value for an unlisted
host, and the empty-map batch raises. -/
theorem fallback_credential_policy_inst :
    resolveCreds [("192.168.1.2", sampleCreds)] "192.168.1.99" = .ok sampleCreds
    ∧ execute_parallel_commands [("192.168.1.2", "uptime")] []
        (fun _ _ _ => .exn "x") = .error PyExn.indexError :=
  ⟨fallback_credential_policy.1 "192.168.1.99" "192.168.1.2" sampleCreds [] rfl,
   fallback_credential_policy.2 "192.168.1.2" "uptime" [] (fun _ _ _ => .exn "x")⟩

theorem make_error_msg (u : String) (p k : Option String) (port : Nat) (e : String)
    (h : SSHCredentials.make u p k port = .error e) :
    e = "Either password or private_key_path must be provided" := by
  unfold SSHCredentials.make at h
  split at h
  · injection h with h
    exact h.symm
  · cases h

/-- C2 (amended): construction succeeds exactly when at least one of
`password` / `private_key_path` is Python-truthy (not `None` and not the
empty string); when both are falsy it fails with the configuration
`ValueError`; on success the record carries the given fields unchanged,
with `port` defaulting to 22, and there is no other effect. -/
theorem credentials_construction_contract :
    (∀ u p k port, pyTruthy p = false → pyTruthy k = false →
      SSHCredentials.make u p k port
        = .error "Either password or private_key_path must be provided")
    ∧ (∀ u p k port, (pyTruthy p || pyTruthy k) = true →
      SSHCredentials.make u p k port
        = .ok { username := u, password := p, private_key_path := k, port := port })
    ∧ (∀ u p k port c, SSHCredentials.make u p k port = .ok c →
      c = { username := u, password := p, private_key_path := k, port := port })
    ∧ (∀ u p k c, SSHCredentials.make u p k = .ok c → c.port = 22) := by
  have hok : ∀ u p k port c, SSHCredentials.make u p k port = .ok c →
      c = { username := u, password := p, private_key_path := k, port := port } := by
    intro u p k port c h
    unfold SSHCredentials.make at h
    split at h
    · cases h
    · injection h with h
      exact h.symm
  refine ⟨?_, ?_, hok, ?_⟩
  · intro u p k port hp hk
    simp [SSHCredentials.make, hp, hk]
  · intro u p k port h
    rcases Bool.or_eq_true_iff.mp h with hp | hp <;>
      simp [SSHCredentials.make, hp]
  · intro u p k c h
    rw [hok u p k 22 c h]

/-- C2 counterexample: an empty-string password is a present `password`
argument (it is not `None`), yet construction fails, refuting
"succeeds whenever at least one is present". -/
theorem credentials_empty_password_cex :
    (some "" : Option String) ≠ none
    ∧ SSHCredentials.make "pi" (some "") none
        = .error "Either password or private_key_path must be provided" :=
  ⟨by simp, rfl⟩

/-- C2 witness: the contract instantiated at a credential set with no
authentication material and at one with a password. -/
theorem credentials_construction_contract_inst :
    SSHCredentials.make "pi" none none 22
        = .error "Either password or private_key_path must be provided"
    ∧ sampleCreds.port = 22 :=
  ⟨credentials_construction_contract.1 "pi" none none 22 rfl rfl,
   credentials_construction_contract.2.2.2 "pi" (some "raspberry") none sampleCreds rfl⟩

/-- C10: `setup_ssh_keys` builds per-node credentials from the node's
`password` only, never its `ssh_key_path` (the hypothesis below leaves
`ssh_key_path` unconstrained); with any node whose `ip` is truthy and whose
`password` is falsy, the `ValueError` from credential construction
propagates out of the loop and the per-host results accumulated for earlier
nodes are discarded (the call returns the error, not a mapping). -/
theorem setup_keys_error_propagation (nodes : List (String × NodeConfig))
    (pk : String) (env : String → String → SSHCredentials → SubprocessOutcome)
    (name : String) (cfg : NodeConfig) (hmem : (name, cfg) ∈ nodes)
    (hip : pyTruthy cfg.ip = true) (hpw : pyTruthy cfg.password = false) :
    setup_ssh_keys nodes pk env
      = .error "Either password or private_key_path must be provided" := by
  induction nodes with
  | nil => simp at hmem
  | cons p rest ih =>
    obtain ⟨pn, pc⟩ := p
    rcases List.mem_cons.mp hmem with h | h
    · injection h with h1 h2
      subst h2
      simp only [setup_ssh_keys, hip, if_true]
      have hmk : SSHCredentials.make (cfg.username.getD "pi") cfg.password none
          = .error "Either password or private_key_path must be provided" := by
        simp [SSHCredentials.make, hpw, show pyTruthy none = false from rfl]
      rw [hmk]
    · simp only [setup_ssh_keys]
      cases hipp : pyTruthy pc.ip with
      | false => simpa [hipp] using ih h
      | true =>
        simp only [if_true]
        cases hmk : SSHCredentials.make (pc.username.getD "pi") pc.password none with
        | error e =>
          rw [make_error_msg _ _ _ _ _ hmk]
        | ok creds =>
          rw [ih h]

/-- C10 witness: a one-node cluster whose node has an `ip` and an
`ssh_key_path` but no password makes `setup_ssh_keys` return the
configuration error instead of a result mapping. -/
theorem setup_keys_error_propagation_inst :
    setup_ssh_keys
        [("node2", { ip := some "192.168.1.11", ssh_key_path := some "/home/pi/.ssh/id_rsa" })]
        sampleKey (fun _ _ _ => .completed 0 "" "" 1)
      = .error "Either password or private_key_path must be provided" :=
  setup_keys_error_propagation _ sampleKey _ "node2"
    { ip := some "192.168.1.11", ssh_key_path := some "/home/pi/.ssh/id_rsa" }
    (List.mem_cons_self _ _) rfl rfl

/-- C3 (amended): the remote append step of `setup_ssh_keys` is unguarded,
so each run appends one more copy of the public key line to the remote
`authorized_keys` store — running the workflow twice with the same key
duplicates the entry; each run (and hence both runs, the call being
deterministic in its inputs) reports per-host success whenever the remote
command exits 0. -/
theorem key_distribution_append_twice :
    (∀ k store, deployEffect k (deployEffect k store) = store ++ [k, k])
    ∧ (∀ k store, (deployEffect k store).count k = store.count k + 1)
    ∧ (∀ name cfg host pk env, pyTruthy cfg.ip = true → cfg.ip = some host →
        pyTruthy cfg.password = true →
        (∀ h c cr, env h c cr = .completed 0 "" "" 1) →
        setup_ssh_keys [(name, cfg)] pk env = .ok [(host, true)]) := by
  refine ⟨?_, ?_, ?_⟩
  · intro k store
    simp [deployEffect]
  · intro k store
    simp [deployEffect]
  · intro name cfg host pk env hip hipeq hpw henv
    have hmk : SSHCredentials.make (cfg.username.getD "pi") cfg.password none
        = .ok { username := cfg.username.getD "pi", password := cfg.password,
                private_key_path := none, port := 22 } := by
      simp [SSHCredentials.make, hpw]
    rw [hipeq] at hip
    simp [setup_ssh_keys, hipeq, hip, hmk, henv, execute_command]

/-- C3 counterexample: the deploy command of `setup_ssh_keys` contains the
unguarded `>>` append and no `grep` guard, and running its remote effect
twice on an empty store leaves two copies of the key line, not one —
the second run does duplicate the entry. -/
theorem key_distribution_duplicates_cex :
    strContains (deployCommand sampleKey) ">> ~/.ssh/authorized_keys" = true
    ∧ strContains (deployCommand sampleKey) "grep" = false
    ∧ (deployEffect sampleKey (deployEffect sampleKey [])).count sampleKey = 2
    ∧ (deployEffect sampleKey []).count sampleKey = 1
    ∧ (deployEffect sampleKey (deployEffect sampleKey [])).count sampleKey
        ≠ (deployEffect sampleKey []).count sampleKey :=
  ⟨by decide, by decide, by decide, by decide, by decide⟩

/-- C3 witness: the amended theorem instantiated at a one-node cluster
whose deploy command succeeds. -/
theorem key_distribution_append_twice_inst :
    deployEffect sampleKey (deployEffect sampleKey []) = [sampleKey, sampleKey]
    ∧ setup_ssh_keys [("node1", { ip := some "192.168.1.10", password := some "raspberry" })]
        sampleKey (fun _ _ _ => .completed 0 "" "" 1) = .ok [("192.168.1.10", true)] :=
  ⟨key_distribution_append_twice.1 sampleKey [],
   key_distribution_append_twice.2.2 "node1"
     { ip := some "192.168.1.10", password := some "raspberry" } "192.168.1.10"
     sampleKey (fun _ _ _ => .completed 0 "" "" 1) rfl rfl rfl (fun _ _ _ => rfl)⟩

theorem summarize_facts (rs : List (String × SSHConnectionResult)) :
    (summarize rs).success_rate
        = 100 * ((summarize rs).successful_connections : ℚ)
            / ((summarize rs).total_nodes : ℚ)
    ∧ ((summarize rs).total_nodes = 0 → (summarize rs).success_rate = 0)
    ∧ (summarize rs).total_nodes
        = (summarize rs).successful_connections + (summarize rs).failed_connections
    ∧ (summarize rs).failed_hosts
        = ((summarize rs).detailed_results.filter fun p => !p.2.success).map Prod.fst
    ∧ ∀ host ∈ (summarize rs).failed_hosts,
        ∃ r, (host, r) ∈ (summarize rs).detailed_results ∧ r.success = false := by
  refine ⟨?_, ?_, ?_, rfl, ?_⟩
  · cases rs with
    | nil => simp [summarize]
    | cons a l =>
      simp only [summarize, List.isEmpty_cons, if_false, Bool.false_eq_true]
      ring
  · intro h
    simp only [summarize] at h ⊢
    rw [List.length_eq_zero] at h
    subst h
    simp
  · simp only [summarize, List.length_map]
    exact List.length_eq_length_filter_add
      (fun p : String × SSHConnectionResult => p.2.success)
  · intro host hmem
    simp only [summarize] at hmem ⊢
    obtain ⟨pr, hpair, hfst⟩ := List.mem_map.mp hmem
    have hf := List.mem_filter.mp hpair
    exact ⟨pr.2, by rw [← hfst]; exact hf.1, by simpa using hf.2⟩

/-- C6: whenever `validate_cluster_connectivity` returns a summary, its
`success_rate` equals `100 × successful_connections / total_nodes` (hence 0,
not an error, when `total_nodes = 0`), `total_nodes` is the sum of
successful and failed connection counts, and the failed hosts listed in the
summary each appear in `detailed_results` with a failure result (carrying
the error message). -/
theorem connectivity_summary_arithmetic (nodes : List (String × NodeConfig))
    (env : String → SSHCredentials → FetchOutcome SSHConnectionResult)
    (summary : ConnectivitySummary)
    (h : validate_cluster_connectivity nodes env = .ok summary) :
    summary.success_rate
        = 100 * (summary.successful_connections : ℚ) / (summary.total_nodes : ℚ)
    ∧ (summary.total_nodes = 0 → summary.success_rate = 0)
    ∧ summary.total_nodes = summary.successful_connections + summary.failed_connections
    ∧ summary.failed_hosts
        = (summary.detailed_results.filter fun p => !p.2.success).map Prod.fst
    ∧ ∀ host ∈ summary.failed_hosts,
        ∃ r, (host, r) ∈ summary.detailed_results ∧ r.success = false := by
  unfold validate_cluster_connectivity at h
  cases hex : extractHostsCredentials nodes with
  | error e =>
    rw [hex] at h
    cases h
  | ok hc =>
    rw [hex] at h
    injection h with h
    rw [← h]
    exact summarize_facts (test_multiple_connections hc env)

/-- C6 witness: the summary theorem instantiated at a one-node cluster
whose probe succeeds. -/
theorem connectivity_summary_arithmetic_inst :
    (summarize (test_multiple_connections [("192.168.1.10", sampleCreds)]
        sampleProbeEnv)).success_rate
      = 100 * ((summarize (test_multiple_connections [("192.168.1.10", sampleCreds)]
            sampleProbeEnv)).successful_connections : ℚ)
          / ((summarize (test_multiple_connections [("192.168.1.10", sampleCreds)]
            sampleProbeEnv)).total_nodes : ℚ) :=
  (connectivity_summary_arithmetic sampleNodes sampleProbeEnv _ rfl).1

end PiSwarm
